import Mathlib

/-!
Verification of the AI BI Copilot core: the multi-provider LLM fallback
cascade (`backend/utils/config.py`) and the sequential analysis pipeline
(`backend/graph/workflow.py`, `backend/main.py`), together with the stage
agents the claims touch (`data_quality_agent.py`, `data_interpreter.py`,
`forecasting_agent.py`, `visualization_agent.py`).
-/

namespace AIBI

/-! ## Provider catalog (backend/utils/config.py, lines 19-51) -/

/-- The four remote/local providers recognized by `get_llm_with_fallback`. -/
inductive Provider where
  | ollama
  | groq
  | openrouter
  | huggingface
deriving DecidableEq, Repr

/-- `OLLAMA_MODELS` from config.py. -/
def OLLAMA_MODELS : List String := ["qwen2.5:7b"]

/-- `GROQ_MODELS` from config.py, in priority order. -/
def GROQ_MODELS : List String :=
  [ "llama-3.1-8b-instant"
  , "qwen/qwen3-32b"
  , "meta-llama/llama-4-scout-17b-16e-instruct"
  , "meta-llama/llama-4-maverick-17b-128e-instruct"
  , "openai/gpt-oss-120b"
  , "gemma2-9b-it"
  , "llama-3.3-70b-versatile" ]

/-- `OPENROUTER_MODELS` from config.py. -/
def OPENROUTER_MODELS : List String :=
  [ "google/gemini-2.0-flash-exp:free"
  , "meta-llama/llama-3.3-70b-instruct:free"
  , "deepseek/deepseek-r1:free"
  , "qwen/qwen-2.5-72b-instruct:free"
  , "nousresearch/hermes-3-llama-3.1-405b:free"
  , "mistralai/mistral-nemo:free"
  , "microsoft/phi-3-mini-128k-instruct:free" ]

/-- `HUGGINGFACE_MODELS` from config.py. -/
def HUGGINGFACE_MODELS : List String :=
  [ "google/flan-t5-large"
  , "google/flan-t5-base"
  , "google/flan-t5-small" ]

/-- Model list of one provider, as read by `get_llm_with_fallback` and the
per-provider branches of `invoke_with_fallback`. -/
def providerModels : Provider → List String
  | .ollama => OLLAMA_MODELS
  | .groq => GROQ_MODELS
  | .openrouter => OPENROUTER_MODELS
  | .huggingface => HUGGINGFACE_MODELS

/-- Process environment facts that decide whether `get_llm_with_fallback`
can construct a client: presence of the optional langchain packages and of
the OpenRouter / Hugging Face API keys (config.py lines 86-124). Groq and
Ollama clients are constructed unconditionally. -/
structure BuildEnv where
  openrouterImportOk : Bool
  openrouterKeySet : Bool
  huggingfaceImportOk : Bool
  huggingfaceKeySet : Bool
deriving DecidableEq, Repr

/-- A constructed provider client, identified by the provider and the model
index it was built for. -/
structure LLMClient where
  provider : Provider
  index : Nat
deriving DecidableEq, Repr

/-- `get_llm_with_fallback(provider, model_index)` (config.py lines 57-126):
returns a client, or `none` when the index is out of range, an optional
package is missing, or (OpenRouter / Hugging Face only) the API key is
absent. -/
def get_llm_with_fallback (env : BuildEnv) (provider : Provider) (model_index : Nat) :
    Option LLMClient :=
  match provider with
  | .ollama =>
      if model_index ≥ OLLAMA_MODELS.length then none
      else some ⟨.ollama, model_index⟩
  | .groq =>
      if model_index ≥ GROQ_MODELS.length then none
      else some ⟨.groq, model_index⟩
  | .openrouter =>
      if model_index ≥ OPENROUTER_MODELS.length then none
      else if env.openrouterImportOk = false then none
      else if env.openrouterKeySet = false then none
      else some ⟨.openrouter, model_index⟩
  | .huggingface =>
      if model_index ≥ HUGGINGFACE_MODELS.length then none
      else if env.huggingfaceImportOk = false then none
      else if env.huggingfaceKeySet = false then none
      else some ⟨.huggingface, model_index⟩

/-- The fixed safe-mode reply of `MockChatLLM.ainvoke` (config.py line 135). -/
def mockText : String :=
  "**System Notice:** All AI providers are currently at capacity. Please try again in a few minutes."

/-- The module globals `_current_provider` / `_current_model_index`
(config.py lines 53-55). -/
structure Globals where
  current_provider : Provider
  current_model_index : Nat
deriving DecidableEq, Repr

/-- Initial value of the globals (`"ollama"`, `0`); also what
`reset_model_index` restores. -/
def initGlobals : Globals := ⟨.ollama, 0⟩

/-- The `llm` argument of `invoke_with_fallback`: a constructed client, the
`MockChatLLM` instance, or Python `None` (what `get_llm_with_fallback`
returns when it cannot build a client; `None.ainvoke` raises and is caught
like any provider failure). -/
inductive LLMArg where
  | client (c : LLMClient)
  | mock
  | nil
deriving DecidableEq, Repr

/-- Coerce the return of `get_llm_with_fallback` into the `llm` argument. -/
def ofOption : Option LLMClient → LLMArg
  | some c => .client c
  | none => .nil

/-- Observable outcome of one `invoke_with_fallback` call: the content of
the returned message (the Python function's only return value), the module
globals after the call, and the ordered list of `ainvoke` attempts made —
`some (p, i)` for an attempt at provider `p`, model index `i`, and `none`
for the terminal `MockChatLLM` safe-mode reply. -/
structure InvokeResult where
  returnValue : String
  globals : Globals
  attempts : List (Option (Provider × Nat))
deriving DecidableEq, Repr

/-- Ranks the provider chain of config.py lines 174-189
(ollama → groq → openrouter → huggingface); used only as a termination
measure. -/
def chainWeight : Provider → Nat
  | .ollama => 30
  | .groq => 20
  | .openrouter => 10
  | .huggingface => 0

/-- The `try: result = await llm.ainvoke(messages)` of config.py lines
146-147, abstracting the provider call: `oracle p i messages = some text`
models a successful `ainvoke` on the client built for `(p, i)`; `none`
models any raised exception. An `llm` of `nil` (Python `None`) fails
without consulting the oracle (`None.ainvoke` raises at once). -/
def tryInvoke {M : Type} (oracle : Provider → Nat → M → Option String)
    (llm : LLMArg) (messages : M) : Option String :=
  match llm with
  | .client c => oracle c.provider c.index messages
  | _ => none

/-- `invoke_with_fallback(llm, messages, provider, model_index)`
(config.py lines 137-189). On success the module globals are set to the
`provider`/`model_index` arguments; on failure the call advances to the
next model of the current provider, then down the provider chain, and
finally to the `MockChatLLM` safe-mode reply. -/
def invoke_with_fallback {M : Type} (env : BuildEnv)
    (oracle : Provider → Nat → M → Option String) (g : Globals)
    (llm : LLMArg) (messages : M) (provider : Provider) (model_index : Nat) :
    InvokeResult :=
  if llm = LLMArg.mock then
    { returnValue := mockText, globals := g, attempts := [none] }
  else
    match tryInvoke oracle llm messages with
    | some text =>
        { returnValue := text
          globals := ⟨provider, model_index⟩
          attempts := [some (provider, model_index)] }
    | none =>
        if model_index < (providerModels provider).length - 1 then
          let r := invoke_with_fallback env oracle g
            (ofOption (get_llm_with_fallback env provider (model_index + 1)))
            messages provider (model_index + 1)
          { r with attempts := some (provider, model_index) :: r.attempts }
        else
          match provider with
          | .ollama =>
              let r := invoke_with_fallback env oracle g
                (ofOption (get_llm_with_fallback env .groq 0)) messages .groq 0
              { r with attempts := some (provider, model_index) :: r.attempts }
          | .groq =>
              let r := invoke_with_fallback env oracle g
                (ofOption (get_llm_with_fallback env .openrouter 0)) messages .openrouter 0
              { r with attempts := some (provider, model_index) :: r.attempts }
          | .openrouter =>
              let r := invoke_with_fallback env oracle g
                (ofOption (get_llm_with_fallback env .huggingface 0)) messages .huggingface 0
              { r with attempts := some (provider, model_index) :: r.attempts }
          | .huggingface =>
              { returnValue := mockText, globals := g
                attempts := [some (provider, model_index), none] }
termination_by ((providerModels provider).length - model_index) + chainWeight provider
decreasing_by
  all_goals first
    | omega
    | (simp only [providerModels, chainWeight, OLLAMA_MODELS, GROQ_MODELS,
        OPENROUTER_MODELS, HUGGINGFACE_MODELS, List.length_cons, List.length_nil]
       omega)

/-! ## The escalation ladder induced by the fallback chain -/

/-- The escalation ladder the recursion of `invoke_with_fallback` walks:
each provider's models in the chain order of config.py lines 156-189
(ollama, then groq, then openrouter, then huggingface); the terminal
safe-mode reply follows the last entry. -/
def ladder : List (Provider × String) :=
  OLLAMA_MODELS.map (fun m => (Provider.ollama, m))
    ++ GROQ_MODELS.map (fun m => (Provider.groq, m))
    ++ OPENROUTER_MODELS.map (fun m => (Provider.openrouter, m))
    ++ HUGGINGFACE_MODELS.map (fun m => (Provider.huggingface, m))

/-- The (provider, model index) positions of `ladder`, in order. -/
def ladderPositions : List (Provider × Nat) :=
  (List.range OLLAMA_MODELS.length).map (fun i => (Provider.ollama, i))
    ++ (List.range GROQ_MODELS.length).map (fun i => (Provider.groq, i))
    ++ (List.range OPENROUTER_MODELS.length).map (fun i => (Provider.openrouter, i))
    ++ (List.range HUGGINGFACE_MODELS.length).map (fun i => (Provider.huggingface, i))

/-- Number of real (provider, model) entries of the ladder. -/
def ladderLength : Nat :=
  OLLAMA_MODELS.length + GROQ_MODELS.length + OPENROUTER_MODELS.length
    + HUGGINGFACE_MODELS.length

/-- Flat ladder index of the first model of each provider. -/
def flatOffset : Provider → Nat
  | .ollama => 0
  | .groq => OLLAMA_MODELS.length
  | .openrouter => OLLAMA_MODELS.length + GROQ_MODELS.length
  | .huggingface => OLLAMA_MODELS.length + GROQ_MODELS.length + OPENROUTER_MODELS.length

/-- Flat ladder index of an attempt; the safe-mode attempt (`none`) sits
past the last real entry. -/
def toFlat : Option (Provider × Nat) → Nat
  | some (p, i) => flatOffset p + i
  | none => ladderLength

/-- Number of ladder entries strictly after provider `p`'s own block. -/
def laterModels : Provider → Nat
  | .ollama => GROQ_MODELS.length + OPENROUTER_MODELS.length + HUGGINGFACE_MODELS.length
  | .groq => OPENROUTER_MODELS.length + HUGGINGFACE_MODELS.length
  | .openrouter => HUGGINGFACE_MODELS.length
  | .huggingface => 0

/-- `get_llm_with_fallback` never returns the mock, so the `llm` argument
of a recursive call is never `LLMArg.mock`. -/
theorem ofOption_ne_mock (o : Option LLMClient) : ofOption o ≠ LLMArg.mock := by
  cases o <;> simp [ofOption]

/-- Unfolding: a call whose `llm` is the mock returns the safe-mode text at
once, leaving the globals untouched. -/
theorem invoke_mock {M : Type} (env : BuildEnv)
    (oracle : Provider → Nat → M → Option String) (g : Globals) (messages : M)
    (p : Provider) (i : Nat) :
    invoke_with_fallback env oracle g LLMArg.mock messages p i
      = { returnValue := mockText, globals := g, attempts := [none] } := by
  cases p <;> rw [invoke_with_fallback] <;> simp

/-- Unfolding: a successful attempt returns the oracle's text, records the
attempt, and writes the `provider`/`model_index` arguments to the globals. -/
theorem invoke_success {M : Type} (env : BuildEnv)
    (oracle : Provider → Nat → M → Option String) (g : Globals)
    (llm : LLMArg) (messages : M) (p : Provider) (i : Nat) (text : String)
    (hm : llm ≠ LLMArg.mock) (heq : tryInvoke oracle llm messages = some text) :
    invoke_with_fallback env oracle g llm messages p i
      = { returnValue := text, globals := ⟨p, i⟩, attempts := [some (p, i)] } := by
  cases p <;> (rw [invoke_with_fallback]; simp only [if_neg hm, heq])

/-- Unfolding: a failed attempt with models left in the current provider
advances to the next model of the same provider. -/
theorem invoke_fail_step {M : Type} (env : BuildEnv)
    (oracle : Provider → Nat → M → Option String) (g : Globals)
    (llm : LLMArg) (messages : M) (p : Provider) (i : Nat)
    (hm : llm ≠ LLMArg.mock) (heq : tryInvoke oracle llm messages = none)
    (hlt : i < (providerModels p).length - 1) :
    invoke_with_fallback env oracle g llm messages p i
      = (let r := invoke_with_fallback env oracle g
            (ofOption (get_llm_with_fallback env p (i + 1))) messages p (i + 1)
         { r with attempts := some (p, i) :: r.attempts }) := by
  cases p <;>
    (rw [invoke_with_fallback]
     simp only [if_neg hm, heq]
     rw [if_pos hlt])

/-- The provider chain of config.py lines 174-185: after exhausting a
provider's models the recursion restarts at index 0 of the next provider;
huggingface has no successor (the safe-mode reply follows instead). -/
def nextProvider : Provider → Option Provider
  | .ollama => some .groq
  | .groq => some .openrouter
  | .openrouter => some .huggingface
  | .huggingface => none

/-- Unfolding: a failed attempt with the current provider exhausted and a
successor provider in the chain switches to that provider's first model. -/
theorem invoke_fail_switch {M : Type} (env : BuildEnv)
    (oracle : Provider → Nat → M → Option String) (g : Globals)
    (llm : LLMArg) (messages : M) (p q : Provider) (i : Nat)
    (hm : llm ≠ LLMArg.mock) (heq : tryInvoke oracle llm messages = none)
    (hge : ¬ i < (providerModels p).length - 1) (hq : nextProvider p = some q) :
    invoke_with_fallback env oracle g llm messages p i
      = (let r := invoke_with_fallback env oracle g
            (ofOption (get_llm_with_fallback env q 0)) messages q 0
         { r with attempts := some (p, i) :: r.attempts }) := by
  cases p <;> simp only [nextProvider, Option.some.injEq, reduceCtorEq] at hq
  all_goals first
    | exact absurd hq (by simp)
    | (subst hq
       rw [invoke_with_fallback]
       simp only [if_neg hm, heq, if_neg hge])

/-- Unfolding: a failed attempt at the end of the huggingface block falls
through to the `MockChatLLM` safe-mode reply, leaving the globals
untouched. -/
theorem invoke_fail_exhausted {M : Type} (env : BuildEnv)
    (oracle : Provider → Nat → M → Option String) (g : Globals)
    (llm : LLMArg) (messages : M) (i : Nat)
    (hm : llm ≠ LLMArg.mock) (heq : tryInvoke oracle llm messages = none)
    (hge : ¬ i < (providerModels Provider.huggingface).length - 1) :
    invoke_with_fallback env oracle g llm messages Provider.huggingface i
      = { returnValue := mockText, globals := g
          attempts := [some (Provider.huggingface, i), none] } := by
  rw [invoke_with_fallback]
  simp only [if_neg hm, heq, if_neg hge]

/-- Core trace lemma: a call at an in-range ladder position makes at most
`(remaining models of the current provider) + (models of later providers) + 1`
attempts, every attempted position is at or after the starting one, and the
flat positions of the attempts are strictly increasing. -/
theorem invoke_trace_spec {M : Type} (env : BuildEnv)
    (oracle : Provider → Nat → M → Option String) (g : Globals)
    (llm : LLMArg) (messages : M) (p : Provider) (i : Nat)
    (hne : llm ≠ LLMArg.mock) (hin : i < (providerModels p).length) :
    ((invoke_with_fallback env oracle g llm messages p i).attempts.length
        ≤ (providerModels p).length - i + laterModels p + 1)
    ∧ (∀ a ∈ (invoke_with_fallback env oracle g llm messages p i).attempts,
        flatOffset p + i ≤ toFlat a)
    ∧ List.Pairwise (· < ·)
        ((invoke_with_fallback env oracle g llm messages p i).attempts.map toFlat) := by
  induction llm, messages, p, i using invoke_with_fallback.induct env oracle g with
  | case1 messages p i =>
      exact absurd rfl hne
  | case2 llm messages p i hm text heq =>
      rw [invoke_success env oracle g llm messages p i text hm heq]
      refine ⟨?_, ?_, ?_⟩
      · simp only [List.length_cons, List.length_nil]; omega
      · intro a ha
        simp only [List.mem_singleton] at ha
        subst ha
        simp [toFlat]
      · simp
  | case3 llm messages p i hm heq hlt ih =>
      have hne' := ofOption_ne_mock (get_llm_with_fallback env p (i + 1))
      have hin' : i + 1 < (providerModels p).length := by omega
      obtain ⟨ih1, ih2, ih3⟩ := ih hne' hin'
      rw [invoke_fail_step env oracle g llm messages p i hm heq hlt]
      refine ⟨?_, ?_, ?_⟩
      · simp only [List.length_cons]; omega
      · intro a ha
        simp only [List.mem_cons] at ha
        rcases ha with rfl | ha
        · simp [toFlat]
        · have := ih2 a ha; omega
      · simp only [List.map_cons, List.pairwise_cons]
        constructor
        · intro b hb
          simp only [List.mem_map] at hb
          obtain ⟨a, ha, rfl⟩ := hb
          have := ih2 a ha
          have hsf : toFlat (some (p, i)) = flatOffset p + i := rfl
          omega
        · exact ih3
  | case4 llm messages i hm heq hge ih =>
      have hne' := ofOption_ne_mock (get_llm_with_fallback env .groq 0)
      have hin' : 0 < (providerModels Provider.groq).length := by decide
      obtain ⟨ih1, ih2, ih3⟩ := ih hne' hin'
      rw [invoke_with_fallback]
      simp only [if_neg hm, heq, if_neg hge]
      have hoff : flatOffset Provider.ollama + (providerModels Provider.ollama).length
          = flatOffset Provider.groq := by decide
      have hlat : laterModels Provider.ollama
          = (providerModels Provider.groq).length + laterModels Provider.groq := by decide
      refine ⟨?_, ?_, ?_⟩
      · simp only [List.length_cons]; omega
      · intro a ha
        simp only [List.mem_cons] at ha
        rcases ha with rfl | ha
        · simp [toFlat]
        · have := ih2 a ha
          have hi : i < (providerModels Provider.ollama).length := hin
          simp only [toFlat] at this ⊢
          omega
      · simp only [List.map_cons, List.pairwise_cons]
        constructor
        · intro b hb
          simp only [List.mem_map] at hb
          obtain ⟨a, ha, rfl⟩ := hb
          have := ih2 a ha
          have hi : i < (providerModels Provider.ollama).length := hin
          simp only [toFlat] at this ⊢
          omega
        · exact ih3
  | case5 llm messages i hm heq hge ih =>
      have hne' := ofOption_ne_mock (get_llm_with_fallback env .openrouter 0)
      have hin' : 0 < (providerModels Provider.openrouter).length := by decide
      obtain ⟨ih1, ih2, ih3⟩ := ih hne' hin'
      rw [invoke_with_fallback]
      simp only [if_neg hm, heq, if_neg hge]
      have hoff : flatOffset Provider.groq + (providerModels Provider.groq).length
          = flatOffset Provider.openrouter := by decide
      have hlat : laterModels Provider.groq
          = (providerModels Provider.openrouter).length + laterModels Provider.openrouter := by
        decide
      refine ⟨?_, ?_, ?_⟩
      · simp only [List.length_cons]; omega
      · intro a ha
        simp only [List.mem_cons] at ha
        rcases ha with rfl | ha
        · simp [toFlat]
        · have := ih2 a ha
          have hi : i < (providerModels Provider.groq).length := hin
          simp only [toFlat] at this ⊢
          omega
      · simp only [List.map_cons, List.pairwise_cons]
        constructor
        · intro b hb
          simp only [List.mem_map] at hb
          obtain ⟨a, ha, rfl⟩ := hb
          have := ih2 a ha
          have hi : i < (providerModels Provider.groq).length := hin
          simp only [toFlat] at this ⊢
          omega
        · exact ih3
  | case6 llm messages i hm heq hge ih =>
      have hne' := ofOption_ne_mock (get_llm_with_fallback env .huggingface 0)
      have hin' : 0 < (providerModels Provider.huggingface).length := by decide
      obtain ⟨ih1, ih2, ih3⟩ := ih hne' hin'
      rw [invoke_with_fallback]
      simp only [if_neg hm, heq, if_neg hge]
      have hoff : flatOffset Provider.openrouter + (providerModels Provider.openrouter).length
          = flatOffset Provider.huggingface := by decide
      have hlat : laterModels Provider.openrouter
          = (providerModels Provider.huggingface).length + laterModels Provider.huggingface := by
        decide
      refine ⟨?_, ?_, ?_⟩
      · simp only [List.length_cons]; omega
      · intro a ha
        simp only [List.mem_cons] at ha
        rcases ha with rfl | ha
        · simp [toFlat]
        · have := ih2 a ha
          have hi : i < (providerModels Provider.openrouter).length := hin
          simp only [toFlat] at this ⊢
          omega
      · simp only [List.map_cons, List.pairwise_cons]
        constructor
        · intro b hb
          simp only [List.mem_map] at hb
          obtain ⟨a, ha, rfl⟩ := hb
          have := ih2 a ha
          have hi : i < (providerModels Provider.openrouter).length := hin
          simp only [toFlat] at this ⊢
          omega
        · exact ih3
  | case7 llm messages i hm heq hge =>
      rw [invoke_with_fallback]
      simp only [if_neg hm, heq, if_neg hge]
      have hi : i < (providerModels Provider.huggingface).length := hin
      have hi3 : i < 3 := by
        simpa [providerModels, HUGGINGFACE_MODELS] using hi
      refine ⟨?_, ?_, ?_⟩
      · simp only [List.length_cons, List.length_nil]
        have : ¬ i < (providerModels Provider.huggingface).length - 1 := hge
        simp only [providerModels, HUGGINGFACE_MODELS] at this ⊢
        simp at this ⊢
        omega
      · intro a ha
        simp only [List.mem_cons, List.mem_singleton] at ha
        rcases ha with rfl | rfl | h
        · simp [toFlat]
        · simp only [toFlat, flatOffset, ladderLength]
          simp [OLLAMA_MODELS, GROQ_MODELS, OPENROUTER_MODELS, HUGGINGFACE_MODELS]
          omega
        · exact absurd h (List.not_mem_nil a)
      · simp only [List.map_cons, List.map_nil, List.pairwise_cons]
        refine ⟨?_, by simp, ?_⟩
        · intro b hb
          simp only [List.mem_singleton] at hb
          subst hb
          simp only [toFlat, flatOffset, ladderLength]
          simp [OLLAMA_MODELS, GROQ_MODELS, OPENROUTER_MODELS, HUGGINGFACE_MODELS]
          omega
        · simp

/-! ## Concrete instances used by witnesses and counterexamples -/

/-- Environment with the optional packages installed and all API keys set. -/
def fullEnv : BuildEnv := ⟨true, true, true, true⟩

/-- An oracle under which every provider call fails. -/
def allFailOracle : Provider → Nat → Unit → Option String := fun _ _ _ => none

/-- An oracle succeeding (with `"ok"`) exactly at (groq, 0). -/
def oracleGroq0 : Provider → Nat → Unit → Option String
  | .groq, 0, _ => some "ok"
  | _, _, _ => none

/-- An oracle succeeding (with `"ok"`) exactly at (groq, 1). -/
def oracleGroq1 : Provider → Nat → Unit → Option String
  | .groq, 1, _ => some "ok"
  | _, _, _ => none

/-! ## C1 -/

/-- C1: for every environment, provider-call outcome, message list and
in-range starting ladder position, one `invoke_with_fallback` call makes at
most `ladderLength + 1 = 19` attempts (so it terminates — the model is a
total function whose recursion is bounded by this measure), and the flat
ladder positions of its attempts are strictly increasing, so no position is
attempted more than once per call. -/
theorem invoke_attempts_bounded_and_increasing {M : Type} (env : BuildEnv)
    (oracle : Provider → Nat → M → Option String) (g : Globals)
    (llm : LLMArg) (messages : M) (p : Provider) (i : Nat)
    (hne : llm ≠ LLMArg.mock) (hin : i < (providerModels p).length) :
    ((invoke_with_fallback env oracle g llm messages p i).attempts.length
        ≤ ladderLength + 1)
    ∧ List.Pairwise (· < ·)
        ((invoke_with_fallback env oracle g llm messages p i).attempts.map toFlat) := by
  obtain ⟨h1, _, h3⟩ := invoke_trace_spec env oracle g llm messages p i hne hin
  refine ⟨?_, h3⟩
  have hle : (providerModels p).length - i + laterModels p + 1 ≤ ladderLength + 1 := by
    cases p <;>
      simp only [providerModels, laterModels, ladderLength, OLLAMA_MODELS, GROQ_MODELS,
        OPENROUTER_MODELS, HUGGINGFACE_MODELS, List.length_cons, List.length_nil] <;>
      omega
  omega

/-- Witness for C1 at the callers' actual starting point (groq, 0), with an
all-failing oracle. -/
theorem invoke_attempts_bounded_and_increasing_witness :
    ((LLMArg.client ⟨.groq, 0⟩ ≠ LLMArg.mock)
      ∧ 0 < (providerModels Provider.groq).length)
    ∧ (((invoke_with_fallback fullEnv allFailOracle initGlobals
          (LLMArg.client ⟨.groq, 0⟩) () Provider.groq 0).attempts.length
            ≤ ladderLength + 1)
        ∧ List.Pairwise (· < ·)
            ((invoke_with_fallback fullEnv allFailOracle initGlobals
              (LLMArg.client ⟨.groq, 0⟩) () Provider.groq 0).attempts.map toFlat)) :=
  ⟨⟨by decide, by decide⟩,
    invoke_attempts_bounded_and_increasing fullEnv allFailOracle initGlobals
      (LLMArg.client ⟨.groq, 0⟩) () Provider.groq 0 (by decide) (by decide)⟩

/-! ## C2 -/

/-- C2: when the attempt at every ladder position fails — all the way to
the true last one — `invoke_with_fallback` still returns normally (the
model is a total function, mirroring the code's blanket `except` clauses:
no provider failure propagates to the caller), and the returned text is
exactly the fixed safe-mode reply of `MockChatLLM`. -/
theorem invoke_all_fail_returns_safe_mode {M : Type} (env : BuildEnv)
    (oracle : Provider → Nat → M → Option String) (g : Globals)
    (llm : LLMArg) (messages : M) (p : Provider) (i : Nat)
    (hfail : ∀ q j m, oracle q j m = none) :
    (invoke_with_fallback env oracle g llm messages p i).returnValue = mockText := by
  induction llm, messages, p, i using invoke_with_fallback.induct env oracle g with
  | case1 messages p i =>
      rw [invoke_mock]
  | case2 llm messages p i hm text heq =>
      exfalso
      cases llm with
      | client c => rw [tryInvoke, hfail] at heq; exact Option.noConfusion heq
      | mock => exact hm rfl
      | nil => simp [tryInvoke] at heq
  | case3 llm messages p i hm heq hlt ih =>
      rw [invoke_fail_step env oracle g llm messages p i hm heq hlt]
      simpa using ih
  | case4 llm messages i hm heq hge ih =>
      rw [invoke_fail_switch env oracle g llm messages .ollama .groq i hm heq hge rfl]
      simpa using ih
  | case5 llm messages i hm heq hge ih =>
      rw [invoke_fail_switch env oracle g llm messages .groq .openrouter i hm heq hge rfl]
      simpa using ih
  | case6 llm messages i hm heq hge ih =>
      rw [invoke_fail_switch env oracle g llm messages .openrouter .huggingface i hm heq hge rfl]
      simpa using ih
  | case7 llm messages i hm heq hge =>
      rw [invoke_fail_exhausted env oracle g llm messages i hm heq hge]

/-- Witness for C2: the all-failing oracle from the callers' starting
point (groq, 0). -/
theorem invoke_all_fail_returns_safe_mode_witness :
    (∀ q j m, allFailOracle q j m = none)
    ∧ (invoke_with_fallback fullEnv allFailOracle initGlobals
        (LLMArg.client ⟨.groq, 0⟩) () Provider.groq 0).returnValue = mockText :=
  ⟨fun _ _ _ => rfl,
    invoke_all_fail_returns_safe_mode fullEnv allFailOracle initGlobals
      (LLMArg.client ⟨.groq, 0⟩) () Provider.groq 0 (fun _ _ _ => rfl)⟩

/-! ## C4 -/

/-- C4 counterexample: `invoke_with_fallback` returns only the generated
message, not a (text, finalPosition) pair. Two runs that succeed at
different ladder positions — (groq, 0) versus (groq, 1) — with the same
generated text produce identical return values, while the position that
succeeded (visible in the written module globals) differs; so the return
value cannot tell the caller which position succeeded. -/
theorem invoke_return_value_carries_no_position :
    ((invoke_with_fallback fullEnv oracleGroq0 initGlobals
        (LLMArg.client ⟨.groq, 0⟩) () Provider.groq 0).returnValue
      = (invoke_with_fallback fullEnv oracleGroq1 initGlobals
        (LLMArg.client ⟨.groq, 0⟩) () Provider.groq 0).returnValue)
    ∧ (invoke_with_fallback fullEnv oracleGroq0 initGlobals
        (LLMArg.client ⟨.groq, 0⟩) () Provider.groq 0).globals
      ≠ (invoke_with_fallback fullEnv oracleGroq1 initGlobals
        (LLMArg.client ⟨.groq, 0⟩) () Provider.groq 0).globals := by
  constructor <;>
    simp [invoke_with_fallback, tryInvoke, get_llm_with_fallback, ofOption,
      oracleGroq0, oracleGroq1, fullEnv, providerModels, GROQ_MODELS, Globals.mk.injEq]

/-- C4 amended: a call whose attempt succeeds returns only the generated
text; the position that succeeded is recorded in the module globals
`_current_provider` / `_current_model_index` (a side effect), not in the
return value, and exactly one attempt is made. -/
theorem invoke_success_records_position_in_globals {M : Type} (env : BuildEnv)
    (oracle : Provider → Nat → M → Option String) (g : Globals)
    (messages : M) (p : Provider) (i : Nat) (text : String)
    (h : oracle p i messages = some text) :
    invoke_with_fallback env oracle g (LLMArg.client ⟨p, i⟩) messages p i
      = { returnValue := text, globals := ⟨p, i⟩, attempts := [some (p, i)] } :=
  invoke_success env oracle g (LLMArg.client ⟨p, i⟩) messages p i text
    (by simp) (by simpa [tryInvoke] using h)

/-- Witness for the amended C4: success at (groq, 0). -/
theorem invoke_success_records_position_in_globals_witness :
    oracleGroq0 Provider.groq 0 () = some "ok"
    ∧ invoke_with_fallback fullEnv oracleGroq0 initGlobals
        (LLMArg.client ⟨.groq, 0⟩) () Provider.groq 0
      = { returnValue := "ok", globals := ⟨.groq, 0⟩, attempts := [some (.groq, 0)] } :=
  ⟨rfl, invoke_success_records_position_in_globals fullEnv oracleGroq0 initGlobals
    () Provider.groq 0 "ok" rfl⟩

/-! ## C5 -/

/-- Modelled from the spec:
the escalation ladder as §3 and §6 of the spec describe it — the
concatenation of each provider's models with provider priority groq first
(primary), then openrouter (secondary), then huggingface (tertiary), then
the local ollama model (offline fallback); the safe-mode entry is the
terminal pseudo-entry after the last position. Defined only to be compared
with the `ladder` the code induces. -/
def specLadder : List (Provider × String) :=
  GROQ_MODELS.map (fun m => (Provider.groq, m))
    ++ OPENROUTER_MODELS.map (fun m => (Provider.openrouter, m))
    ++ HUGGINGFACE_MODELS.map (fun m => (Provider.huggingface, m))
    ++ OLLAMA_MODELS.map (fun m => (Provider.ollama, m))

/-- C5 counterexample: the ladder the code walks does not match the
spec's claimed provider priority. The code's ladder starts at the local
ollama model, not at groq; and a run started at groq (as every caller in
the repository does) attempts groq, openrouter and huggingface positions
and then falls to safe mode — the local model is never visited after
huggingface. -/
theorem ladder_order_counterexample :
    ladder ≠ specLadder
    ∧ ladder.head? = some (Provider.ollama, "qwen2.5:7b")
    ∧ (invoke_with_fallback fullEnv allFailOracle initGlobals
        (ofOption (get_llm_with_fallback fullEnv .groq 0)) () Provider.groq 0).attempts
      = ((List.range GROQ_MODELS.length).map (fun i => some (Provider.groq, i))
          ++ (List.range OPENROUTER_MODELS.length).map (fun i => some (Provider.openrouter, i))
          ++ (List.range HUGGINGFACE_MODELS.length).map (fun i => some (Provider.huggingface, i))
          ++ [none]) := by
  refine ⟨by decide, by decide, ?_⟩
  simp [invoke_with_fallback, tryInvoke, get_llm_with_fallback, ofOption, allFailOracle,
    fullEnv, providerModels, OLLAMA_MODELS, GROQ_MODELS, OPENROUTER_MODELS,
    HUGGINGFACE_MODELS, List.range_succ]

/-- C5 amended: the escalation ladder is the concatenation of each
provider's models in the chain order of the code — ollama (the local
model) first, then groq, then openrouter, then huggingface — with the
safe-mode reply as terminal entry: an all-failing run started at the first
ladder position attempts exactly the ladder's positions in that order and
then the safe-mode reply. -/
theorem ladder_order_code :
    ladder.length = ladderLength
    ∧ ladderPositions.map
        (fun q => (q.1, (providerModels q.1).getD q.2 "")) = ladder
    ∧ (invoke_with_fallback fullEnv allFailOracle initGlobals
        (ofOption (get_llm_with_fallback fullEnv .ollama 0)) () Provider.ollama 0).attempts
      = ladderPositions.map some ++ [none] := by
  refine ⟨by decide, by decide, ?_⟩
  simp [invoke_with_fallback, tryInvoke, get_llm_with_fallback, ofOption, allFailOracle,
    fullEnv, providerModels, ladderPositions, OLLAMA_MODELS, GROQ_MODELS,
    OPENROUTER_MODELS, HUGGINGFACE_MODELS, List.range_succ]

/-! ## C6 -/

/-- C6 counterexample: a successful call does write a process-wide
variable recording the current provider and model — the module globals
change from their initial value to (groq, 0) after a success at
(groq, 0). -/
theorem invoke_writes_globals :
    (invoke_with_fallback fullEnv oracleGroq0 initGlobals
        (LLMArg.client ⟨.groq, 0⟩) () Provider.groq 0).globals ≠ initGlobals := by
  simp [invoke_with_fallback, tryInvoke, oracleGroq0, fullEnv, initGlobals,
    Globals.mk.injEq]

/-- C6 amended: `invoke_with_fallback` writes the module globals on
success but never reads them, so its return value and its attempt
sequence are independent of the globals state left by earlier calls: a
later call with the same arguments returns the same text and makes the
same attempts whatever an earlier call did. -/
theorem invoke_independent_of_globals {M : Type} (env : BuildEnv)
    (oracle : Provider → Nat → M → Option String) (g g' : Globals)
    (llm : LLMArg) (messages : M) (p : Provider) (i : Nat) :
    ((invoke_with_fallback env oracle g llm messages p i).returnValue
      = (invoke_with_fallback env oracle g' llm messages p i).returnValue)
    ∧ ((invoke_with_fallback env oracle g llm messages p i).attempts
      = (invoke_with_fallback env oracle g' llm messages p i).attempts) := by
  induction llm, messages, p, i using invoke_with_fallback.induct env oracle g with
  | case1 messages p i =>
      rw [invoke_mock, invoke_mock]
      exact ⟨rfl, rfl⟩
  | case2 llm messages p i hm text heq =>
      rw [invoke_success env oracle g llm messages p i text hm heq,
        invoke_success env oracle g' llm messages p i text hm heq]
      exact ⟨rfl, rfl⟩
  | case3 llm messages p i hm heq hlt ih =>
      rw [invoke_fail_step env oracle g llm messages p i hm heq hlt,
        invoke_fail_step env oracle g' llm messages p i hm heq hlt]
      simpa using ⟨ih.1, ih.2⟩
  | case4 llm messages i hm heq hge ih =>
      rw [invoke_fail_switch env oracle g llm messages .ollama .groq i hm heq hge rfl,
        invoke_fail_switch env oracle g' llm messages .ollama .groq i hm heq hge rfl]
      simpa using ⟨ih.1, ih.2⟩
  | case5 llm messages i hm heq hge ih =>
      rw [invoke_fail_switch env oracle g llm messages .groq .openrouter i hm heq hge rfl,
        invoke_fail_switch env oracle g' llm messages .groq .openrouter i hm heq hge rfl]
      simpa using ⟨ih.1, ih.2⟩
  | case6 llm messages i hm heq hge ih =>
      rw [invoke_fail_switch env oracle g llm messages .openrouter .huggingface i hm heq hge rfl,
        invoke_fail_switch env oracle g' llm messages .openrouter .huggingface i hm heq hge rfl]
      simpa using ⟨ih.1, ih.2⟩
  | case7 llm messages i hm heq hge =>
      rw [invoke_fail_exhausted env oracle g llm messages i hm heq hge,
        invoke_fail_exhausted env oracle g' llm messages i hm heq hge]
      exact ⟨rfl, rfl⟩

/-! ## A model of the pandas DataFrame, as the agents consume it -/

/-- One cell of a column: missing (NaN), an integer, a float (ℚ in the
model), or a string. -/
inductive Cell where
  | null
  | i (z : Int)
  | f (q : ℚ)
  | s (v : String)
deriving DecidableEq, Repr

/-- The Python runtime type of a cell's value, as `df[col].apply(type)`
sees it; a missing value is a float (NaN). -/
inductive PyKind where
  | int
  | float
  | str
deriving DecidableEq, Repr

/-- `type(x)` for a cell. -/
def cellKind : Cell → PyKind
  | .null => .float
  | .i _ => .int
  | .f _ => .float
  | .s _ => .str

/-- `x < 0` for a cell (false for non-numeric cells). -/
def cellNeg : Cell → Bool
  | .i z => z < 0
  | .f q => q < 0
  | _ => false

/-- Is the cell missing? (`df.isnull()`). -/
def isNullCell : Cell → Bool
  | .null => true
  | _ => false

/-- The pandas dtypes the agents branch on (`data_interpreter.infer_schema`
checks for "int", "float", "datetime" and "object" in the dtype string;
other dtypes do not occur in this model). -/
inductive Dtype where
  | int
  | float
  | obj
  | datetime
deriving DecidableEq, Repr

/-- Is the dtype selected by `select_dtypes(include=['number'])`? -/
def isNumericDtype : Dtype → Bool
  | .int => true
  | .float => true
  | _ => false

/-- One dataframe column: name, dtype, cells, and whether
`pd.to_datetime(df[col])` succeeds (the pandas datetime parser is
abstracted into this field). -/
structure Column where
  name : String
  dtype : Dtype
  cells : List Cell
  canParseDatetime : Bool
deriving DecidableEq, Repr

/-- A dataframe: its row count (`len(df)`) and columns. -/
structure DataFrame where
  nRows : Nat
  cols : List Column
deriving DecidableEq, Repr

/-- The cells of a column that lie within the frame (`df[col]`). -/
def colCells (df : DataFrame) (c : Column) : List Cell :=
  c.cells.take df.nRows

/-- The rows of the frame, reconstructed column-major. -/
def rowsList (df : DataFrame) : List (List Cell) :=
  (List.range df.nRows).map fun i => df.cols.map fun c => c.cells.getD i Cell.null

/-- `df.duplicated().sum()`: rows equal to some earlier row. -/
def dupCount : List (List Cell) → List (List Cell) → Nat
  | [], _ => 0
  | r :: rest, seen => (if r ∈ seen then 1 else 0) + dupCount rest (r :: seen)

/-- Python's `needle in hay` substring test, expressed over the character
list so that concrete instances evaluate. -/
def containsSub (hay needle : String) : Bool :=
  hay.data.tails.any fun t => needle.data.isPrefixOf t

/-- Python's `s.lower()` (the column names here are ASCII). -/
def lowerP (s : String) : String := ⟨s.data.map Char.toLower⟩

/-- `df[col].isnull().sum()`. -/
def countNulls (df : DataFrame) (c : Column) : Nat :=
  ((colCells df c).filter fun x => isNullCell x).length

/-- `df[col].nunique()`: distinct non-null values. -/
def nuniqueCol (df : DataFrame) (c : Column) : Nat :=
  (((colCells df c).filter fun x => !isNullCell x).dedup).length

/-! ## DataQualityAgent (backend/agents/data_quality_agent.py) -/

/-- Result of `check_missing_values` (lines 12-21). -/
structure MissingReport where
  total_missing : Nat
  by_column : List (String × Nat)
  percentage : List (String × ℚ)
deriving DecidableEq, Repr

/-- `check_missing_values(df)`: per-column null counts; the percentage is
over `len(df)` (ℚ division, so the empty-frame NaN/inf of pandas is out of
this model — the quality claims assume a non-empty frame). -/
def check_missing_values (df : DataFrame) : MissingReport :=
  let per := df.cols.map fun c => (c.name, countNulls df c)
  { total_missing := (per.map fun q => q.2).sum
    by_column := per.filter fun q => 0 < q.2
    percentage :=
      (df.cols.map fun c => (c.name, (countNulls df c : ℚ) / (df.nRows : ℚ) * 100)).filter
        fun q => 0 < q.2 }

/-- Result of `check_duplicates` (lines 23-29). -/
structure DupReport where
  count : Nat
  percentage : ℚ
deriving DecidableEq, Repr

/-- `check_duplicates(df)`. -/
def check_duplicates (df : DataFrame) : DupReport :=
  { count := dupCount (rowsList df) []
    percentage := (dupCount (rowsList df) [] : ℚ) / (df.nRows : ℚ) * 100 }

/-- `check_inconsistencies(df)` (lines 31-47): object columns holding more
than one runtime type, then numeric price/cost/qty columns holding
negative values. -/
def check_inconsistencies (df : DataFrame) : List String :=
  ((df.cols.filter fun c => c.dtype = Dtype.obj).filterMap fun c =>
    if 1 < (((colCells df c).map cellKind).dedup).length then
      some ("Column '" ++ c.name ++ "' contains mixed data types.")
    else none)
  ++ ((df.cols.filter fun c => isNumericDtype c.dtype).filterMap fun c =>
    if (containsSub (lowerP c.name) "price" || containsSub (lowerP c.name) "cost"
          || containsSub (lowerP c.name) "qty")
        && (colCells df c).any cellNeg then
      some ("Column '" ++ c.name ++ "' has negative values which might be invalid.")
    else none)

/-- Python's `round(x, 2)` in the score computation. (CPython rounds
half-to-even; this model rounds half-up — both are monotone and fix the
integers 0 and 100, which is all the quality-score bound uses.) -/
def round2 (q : ℚ) : ℚ := ((round (q * 100) : ℤ) : ℚ) / 100

/-- Result of `analyze_quality` (lines 49-73). -/
structure QualityReport where
  quality_score : ℚ
  missing_values : MissingReport
  duplicates : DupReport
  inconsistencies : List String
  is_clean : Bool
deriving DecidableEq, Repr

/-- `analyze_quality(df)`: start from 100, deduct at most 20 for missing
values, at most 20 for duplicate rows, 5 per inconsistency, then clamp
below at 0 after rounding to two decimals; `is_clean` compares the
unrounded score with 90. -/
def analyze_quality (df : DataFrame) : QualityReport :=
  let missing := check_missing_values df
  let duplicates := check_duplicates df
  let inconsistencies := check_inconsistencies df
  let score0 : ℚ := 100
  let score1 :=
    if 0 < missing.total_missing then
      score0 - min 20 ((missing.total_missing : ℚ) / (df.nRows : ℚ) * 100)
    else score0
  let score2 :=
    if 0 < duplicates.count then
      score1 - min 20 ((duplicates.count : ℚ) / (df.nRows : ℚ) * 100)
    else score1
  let score3 :=
    if inconsistencies ≠ [] then score2 - (inconsistencies.length : ℚ) * 5
    else score2
  { quality_score := max 0 (round2 score3)
    missing_values := missing
    duplicates := duplicates
    inconsistencies := inconsistencies
    is_clean := decide (90 < score3) }

/-! ## DataInterpreter (backend/agents/data_interpreter.py) -/

/-- The errors `load_data` can surface: the explicit
`ValueError("Unsupported file format")`, or whatever a pandas reader
raises (re-raised unchanged after logging). -/
inductive LoadError where
  | valueError (msg : String)
  | readError (msg : String)
deriving DecidableEq, Repr

/-- Python's `str.endswith(suffix)`, expressed over the character list so
that concrete instances evaluate. -/
def endsWithP (s suffix : String) : Bool := suffix.data.isSuffixOf s.data

/-- `load_data(file_path)` (lines 15-28), with the pandas readers as
parameters: dispatch on the file extension; an unsupported extension
raises `ValueError("Unsupported file format")`; the `except` clause logs
and re-raises, so errors pass through unchanged. -/
def load_data (readCsv readExcel : String → Except LoadError DataFrame)
    (file_path : String) : Except LoadError DataFrame :=
  if endsWithP file_path ".csv" then readCsv file_path
  else if endsWithP file_path ".xls" || endsWithP file_path ".xlsx" then readExcel file_path
  else Except.error (.valueError "Unsupported file format")

/-- `infer_schema(df)` (lines 30-50). -/
def infer_schema (df : DataFrame) : List (String × String) :=
  df.cols.map fun c =>
    (c.name,
      match c.dtype with
      | .int => "Integer"
      | .float => "Float"
      | .datetime => "Datetime"
      | .obj => if c.canParseDatetime then "Datetime" else "Categorical/Text")

/-- The `initial_summary` fragment `process` builds (lines 102-116). -/
structure SummaryFrag where
  rows : Nat
  columns : Nat
  schema : List (String × String)
  missing_values : List (String × Nat)
  columns_list : List String
deriving DecidableEq, Repr

/-- The summary part of `DataInterpreter.process` (the dataframe itself is
the other half of the fragment). -/
def processSummary (df : DataFrame) : SummaryFrag :=
  { rows := df.nRows
    columns := df.cols.length
    schema := infer_schema df
    missing_values := df.cols.map fun c => (c.name, countNulls df c)
    columns_list := df.cols.map fun c => c.name }

/-! ## ForecastingAgent (backend/agents/forecasting_agent.py) -/

/-- One row of Prophet's forecast output as `run_forecast` keeps it:
`ds`, `yhat`, `yhat_lower`, `yhat_upper`. -/
structure ForecastRow where
  ds : String
  yhat : ℚ
  yhat_lower : ℚ
  yhat_upper : ℚ
deriving DecidableEq, Repr

/-- `detect_time_series(df)` (lines 18-44): the first column whose
lowercased name contains "date" or "time" and which parses as datetime;
then the first numeric column whose name contains one of
sales/revenue/amount/total/price, else the first numeric column. -/
def detect_time_series (df : DataFrame) : Option (String × String) :=
  let date_col := df.cols.find? fun c =>
    (containsSub (lowerP c.name) "date" || containsSub (lowerP c.name) "time")
      && c.canParseDatetime
  match date_col with
  | none => none
  | some dc =>
      let numeric := df.cols.filter fun c => isNumericDtype c.dtype
      let target :=
        match numeric.find? (fun c =>
          ["sales", "revenue", "amount", "total", "price"].any fun k =>
            containsSub (lowerP c.name) k) with
        | some t => some t
        | none => numeric.head?
      match target with
      | some t => some (dc.name, t.name)
      | none => none

/-- The dictionary `run_forecast` returns, all keys across its three
shapes (skipped / success / failed) as optional fields. -/
structure ForecastFrag where
  status : String
  reason : Option String
  target_column : Option String
  forecast_plot : Option String
  components_plot : Option String
  forecast_data : Option (List ForecastRow)
  error : Option String
deriving DecidableEq, Repr

/-- Output directory of the forecasting agent. -/
def forecastDir : String := "backend/forecasting"

/-- `run_forecast(df, periods)` (lines 46-93). Prophet — fitting,
prediction, and the groupby-sum date aggregation feeding it — is an
external library, abstracted as the `prophet` parameter (applied to the
frame and the detected date/target columns); `Except.error` models a
raised exception, answered by the `failed` dictionary. Fresh
`uuid.uuid4()` values come from the supply `uuid` at counter `k`; the
returned counter is the next unused index. -/
def run_forecast (prophet : DataFrame → String → String → Except String (List ForecastRow))
    (uuid : Nat → String) (k : Nat) (periods : Nat) (df : DataFrame) :
    ForecastFrag × Nat :=
  match detect_time_series df with
  | none =>
      ({ status := "skipped", reason := some "No date/numeric pair found"
         target_column := none, forecast_plot := none, components_plot := none
         forecast_data := none, error := none }, k)
  | some (date_col, target_col) =>
      match prophet df date_col target_col with
      | .ok data =>
          ({ status := "success", reason := none
             target_column := some target_col
             forecast_plot := some (forecastDir ++ "/" ++ uuid k ++ "_forecast.png")
             components_plot := some (forecastDir ++ "/" ++ uuid (k + 1) ++ "_components.png")
             forecast_data := some (data.drop (data.length - periods))
             error := none }, k + 2)
      | .error e =>
          ({ status := "failed", reason := none, target_column := none
             forecast_plot := none, components_plot := none, forecast_data := none
             error := some e }, k)

/-! ## VisualizationAgent (backend/agents/visualization_agent.py) -/

/-- Output directory of the visualization agent. -/
def vizDir : String := "backend/visualizations"

/-- `_save_plot(title)` (lines 19-28): the saved path embeds a fresh uuid
and the lowercased, underscore-joined title. -/
def savePlot (u : String) (title : String) : String :=
  vizDir ++ "/" ++ u ++ "_"
    ++ lowerP ⟨title.data.map fun c => if c = ' ' then '_' else c⟩ ++ ".png"

/-- Save one plot per title, consuming one uuid each, left to right. -/
def plotFold (uuid : Nat → String) : List String → Nat → List String × Nat
  | [], k => ([], k)
  | t :: ts, k =>
      let r := plotFold uuid ts (k + 1)
      (savePlot (uuid k) t :: r.1, r.2)

/-- The `charts` dictionary of `create_visualizations` (lines 80-120). -/
structure VizCharts where
  correlation : List String
  distributions : List String
  categorical : List String
  time_series : List String
deriving DecidableEq, Repr

/-- `create_visualizations(df)` (lines 80-120): a correlation heatmap when
the numeric sub-frame is non-empty (pandas `.empty` is true when it has no
columns or no rows), distribution plots for the first three numeric
columns, count plots for the first three object columns of at most 20
distinct values, and one time-series plot when a date-like column and a
numeric column exist. -/
def create_visualizations (uuid : Nat → String) (k : Nat) (df : DataFrame) :
    VizCharts × Nat :=
  let numericCols := df.cols.filter fun c => isNumericDtype c.dtype
  let heat :=
    if numericCols.isEmpty || df.nRows == 0 then ([], k)
    else ([savePlot (uuid k) "Correlation Matrix"], k + 1)
  let dists := plotFold uuid
    ((numericCols.take 3).map fun c => "Distribution of " ++ c.name) heat.2
  let catCols := ((df.cols.filter fun c => c.dtype = Dtype.obj).take 3).filter
    fun c => nuniqueCol df c ≤ 20
  let cats := plotFold uuid (catCols.map fun c => "Count of " ++ c.name) dists.2
  let dateCols := df.cols.filter fun c =>
    (containsSub (lowerP c.name) "date" || containsSub (lowerP c.name) "time")
      && c.canParseDatetime
  let ts :=
    match dateCols, numericCols with
    | _ :: _, nc :: _ =>
        ([savePlot (uuid cats.2) ("Trend of " ++ nc.name ++ " over Time")], cats.2 + 1)
    | _, _ => ([], cats.2)
  ({ correlation := heat.1, distributions := dists.1
     categorical := cats.1, time_series := ts.1 }, ts.2)

/-! ## The six-stage workflow over the typed AgentState
(backend/graph/workflow.py) -/

/-- StatisticalAgent.analyze and the report writer produce fragments whose
internal structure no claim depends on; the spec places statistical
formulas out of scope ("treated as external collaborators"), so their
payloads are opaque values produced by deterministic oracles. -/
structure PipelineOracles where
  statFrag : DataFrame → String
  prophet : DataFrame → String → String → Except String (List ForecastRow)
  reportFrag : String → SummaryFrag → QualityReport → String → VizCharts →
    ForecastFrag → String

/-- The `AgentState` of workflow.py after a full run: the dataframe and
the six per-stage fragments. -/
structure PipelineState where
  task_id : String
  df : DataFrame
  summary : SummaryFrag
  quality_report : QualityReport
  statistics : String
  visualizations : VizCharts
  forecast : ForecastFrag
  final_report : String
deriving DecidableEq, Repr

/-- The sequential workflow of workflow.py lines 84-90 (interpret →
quality → statistics → visualization → forecast → report), run on an
already-loaded dataframe: each node computes its fragment from the state
merged so far. `node_report` is Modelled from the spec:
`backend/agents/report_writer.py` is not part of the sources; per the
spec a Stage is a pure function of the previously merged state that may
fold in generated text, so the report fragment is the `reportFrag` oracle
applied to the prior fragments (the fixed generated text is inside the
oracle). The uuid supply starts at counter 0 and is consumed in stage
order (visualization first, then forecasting). -/
def runPipeline (o : PipelineOracles) (uuid : Nat → String) (task_id : String)
    (df : DataFrame) : PipelineState :=
  let summary := processSummary df
  let quality := analyze_quality df
  let stats := o.statFrag df
  let viz := create_visualizations uuid 0 df
  let fc := run_forecast o.prophet uuid viz.2 30 df
  { task_id := task_id
    df := df
    summary := summary
    quality_report := quality
    statistics := stats
    visualizations := viz.1
    forecast := fc.1
    final_report := o.reportFrag task_id summary quality stats viz.1 fc.1 }

/-! ## Executor semantics with failure (backend/graph/workflow.py wiring,
backend/main.py run_workflow) -/

/-- What the executor sees of one stage: the fragment it merges on normal
return, or the exception a fatally failing stage raises. -/
inductive StageOutcome (α : Type) where
  | success (frag : α)
  | fatal (err : String)

/-- The compiled straight-line graph of workflow.py lines 84-90, as the
executor runs it: stages execute in their configured order over an
append-only fragment map keyed by stage name; each merged fragment is
visible to the next stage; a raised exception aborts execution on the
spot. Returns the state at halt, the names of the stages that began
executing, and the raised error, if any. -/
def execStages {α : Type} :
    List (String × (List (String × α) → StageOutcome α)) → List (String × α) →
    List (String × α) × List String × Option String
  | [], st => (st, [], none)
  | (n, f) :: rest, st =>
      match f st with
      | .success frag =>
          let r := execStages rest (st ++ [(n, frag)])
          (r.1, n :: r.2.1, r.2.2)
      | .fatal e => (st, [n], some e)

/-- `run_workflow` of backend/main.py lines 70-99: `await
app_workflow.ainvoke(initial_state)` inside `try`; on an exception the
function only logs (`Workflow failed`) and falls off the end — the
partially merged state is not bound and nothing is returned. -/
def run_workflow {α : Type}
    (stages : List (String × (List (String × α) → StageOutcome α)))
    (init : List (String × α)) : Option (List (String × α)) :=
  match (execStages stages init).2.2 with
  | none => some (execStages stages init).1
  | some _ => none

/-- A fatal run always starts at least one stage. -/
theorem execStages_executed_ne_nil {α : Type}
    (stages : List (String × (List (String × α) → StageOutcome α)))
    (init : List (String × α)) (e : String)
    (h : (execStages stages init).2.2 = some e) :
    (execStages stages init).2.1 ≠ [] := by
  cases stages with
  | nil => simp [execStages] at h
  | cons s rest =>
      obtain ⟨n, f⟩ := s
      rw [execStages]
      cases hf : f init <;> simp [hf]

/-! ## C3 -/

/-- C3 counterexample: the six-stage workflow with stage 4
(visualization) fatal. Internally the halt state holds exactly the
fragments of stages 1-3 and stages 5-6 never start, but `run_workflow`
returns nothing at all — the caller is not handed a SharedState containing
the fragments of stages 1..k-1, contradicting the claim's "SharedState
returned to the caller". -/
theorem run_workflow_fatal_returns_nothing :
    run_workflow
      [("interpret", fun _ => StageOutcome.success 1),
       ("quality", fun _ => StageOutcome.success 2),
       ("statistics", fun _ => StageOutcome.success 3),
       ("visualization", fun _ => StageOutcome.fatal "boom"),
       ("forecast", fun _ => StageOutcome.success 5),
       ("report", fun _ => StageOutcome.success 6)] [] = none
    ∧ (execStages
        [("interpret", fun _ => StageOutcome.success 1),
         ("quality", fun _ => StageOutcome.success 2),
         ("statistics", fun _ => StageOutcome.success 3),
         ("visualization", fun _ => StageOutcome.fatal "boom"),
         ("forecast", fun _ => StageOutcome.success 5),
         ("report", fun _ => StageOutcome.success 6)] []).1
      = [("interpret", 1), ("quality", 2), ("statistics", 3)]
    ∧ (execStages
        [("interpret", fun _ => StageOutcome.success 1),
         ("quality", fun _ => StageOutcome.success 2),
         ("statistics", fun _ => StageOutcome.success 3),
         ("visualization", fun _ => StageOutcome.fatal "boom"),
         ("forecast", fun _ => StageOutcome.success 5),
         ("report", fun _ => StageOutcome.success 6)] []).2.1
      = ["interpret", "quality", "statistics", "visualization"] :=
  ⟨rfl, rfl, rfl⟩

/-- C3 amended: when some stage raises fatally, no stage after it begins
(the executed names are a prefix of the configured order, ending at the
failing stage), and the state at the halt point is the initial state plus
exactly one fragment per executed stage except the failing one — but this
partial state is not returned to the caller: `run_workflow` swallows the
exception and yields nothing. -/
theorem pipeline_fatal_halts {α : Type}
    (stages : List (String × (List (String × α) → StageOutcome α)))
    (init : List (String × α)) (e : String)
    (h : (execStages stages init).2.2 = some e) :
    run_workflow stages init = none
    ∧ (∃ t, (execStages stages init).2.1 ++ t = stages.map Prod.fst)
    ∧ (∃ l, (execStages stages init).1 = init ++ l
        ∧ l.map Prod.fst = (execStages stages init).2.1.dropLast) := by
  induction stages generalizing init with
  | nil => simp [execStages] at h
  | cons s rest ih =>
      obtain ⟨n, f⟩ := s
      cases hf : f init with
      | success frag =>
          have hx : execStages ((n, f) :: rest) init
              = ((execStages rest (init ++ [(n, frag)])).1,
                 n :: (execStages rest (init ++ [(n, frag)])).2.1,
                 (execStages rest (init ++ [(n, frag)])).2.2) := by
            rw [execStages, hf]
          have h' : (execStages rest (init ++ [(n, frag)])).2.2 = some e := by
            rw [hx] at h; exact h
          obtain ⟨_, ⟨t, ht⟩, ⟨l, hl, hlm⟩⟩ := ih (init ++ [(n, frag)]) h'
          have hnenil := execStages_executed_ne_nil rest (init ++ [(n, frag)]) e h'
          refine ⟨?_, ⟨t, ?_⟩, ⟨(n, frag) :: l, ?_, ?_⟩⟩
          · rw [run_workflow, hx]
            simp [h']
          · rw [hx]
            simp only [List.map_cons, List.cons_append, ht]
          · rw [hx]
            simp only [hl, List.append_assoc, List.singleton_append]
          · rw [hx]
            simp only [List.map_cons, hlm]
            rw [List.dropLast_cons_of_ne_nil hnenil]
      | fatal e' =>
          have hx : execStages ((n, f) :: rest) init = (init, [n], some e') := by
            rw [execStages, hf]
          refine ⟨?_, ⟨rest.map Prod.fst, ?_⟩, ⟨[], ?_, ?_⟩⟩
          · rw [run_workflow, hx]
          · rw [hx]
            simp
          · rw [hx]
            simp
          · rw [hx]
            simp

/-- Witness for the amended C3, at the six-stage scenario with stage 4
fatal. -/
theorem pipeline_fatal_halts_witness :
    ((execStages
        [("interpret", fun _ => StageOutcome.success 10),
         ("quality", fun _ => StageOutcome.success 20),
         ("statistics", fun _ => StageOutcome.success 30),
         ("visualization", fun _ => StageOutcome.fatal "bad column"),
         ("forecast", fun _ => StageOutcome.success 50),
         ("report", fun _ => StageOutcome.success 60)] ([] : List (String × Nat))).2.2
      = some "bad column")
    ∧ (run_workflow
        [("interpret", fun _ => StageOutcome.success 10),
         ("quality", fun _ => StageOutcome.success 20),
         ("statistics", fun _ => StageOutcome.success 30),
         ("visualization", fun _ => StageOutcome.fatal "bad column"),
         ("forecast", fun _ => StageOutcome.success 50),
         ("report", fun _ => StageOutcome.success 60)] [] = none
      ∧ (∃ t, (execStages
          [("interpret", fun _ => StageOutcome.success 10),
           ("quality", fun _ => StageOutcome.success 20),
           ("statistics", fun _ => StageOutcome.success 30),
           ("visualization", fun _ => StageOutcome.fatal "bad column"),
           ("forecast", fun _ => StageOutcome.success 50),
           ("report", fun _ => StageOutcome.success 60)] []).2.1 ++ t
        = ["interpret", "quality", "statistics", "visualization", "forecast", "report"])
      ∧ (∃ l, (execStages
          [("interpret", fun _ => StageOutcome.success 10),
           ("quality", fun _ => StageOutcome.success 20),
           ("statistics", fun _ => StageOutcome.success 30),
           ("visualization", fun _ => StageOutcome.fatal "bad column"),
           ("forecast", fun _ => StageOutcome.success 50),
           ("report", fun _ => StageOutcome.success 60)] []).1 = [] ++ l
          ∧ l.map Prod.fst
            = (execStages
              [("interpret", fun _ => StageOutcome.success 10),
               ("quality", fun _ => StageOutcome.success 20),
               ("statistics", fun _ => StageOutcome.success 30),
               ("visualization", fun _ => StageOutcome.fatal "bad column"),
               ("forecast", fun _ => StageOutcome.success 50),
               ("report", fun _ => StageOutcome.success 60)] []).2.1.dropLast)) :=
  ⟨rfl,
    pipeline_fatal_halts
      [("interpret", fun _ => StageOutcome.success 10),
       ("quality", fun _ => StageOutcome.success 20),
       ("statistics", fun _ => StageOutcome.success 30),
       ("visualization", fun _ => StageOutcome.fatal "bad column"),
       ("forecast", fun _ => StageOutcome.success 50),
       ("report", fun _ => StageOutcome.success 60)] [] "bad column" rfl⟩

/-! ## C9 -/

/-- Rounding to two decimals never lifts a value above 100. -/
theorem round2_le_100 {q : ℚ} (h : q ≤ 100) : round2 q ≤ 100 := by
  have hlt : round (q * 100) < 10001 := by
    rw [round_eq, Int.floor_lt]
    push_cast
    linarith
  have hle : ((round (q * 100) : ℤ) : ℚ) ≤ 10000 := by
    exact_mod_cast Int.lt_add_one_iff.mp hlt
  unfold round2
  rw [div_le_iff₀ (by norm_num : (0 : ℚ) < 100)]
  linarith

/-- C9: for a non-empty frame, `analyze_quality` returns a quality score
between 0 and 100 inclusive: the score starts at 100, the missing-value
and duplicate deductions are each capped at 20 (and the inconsistency
deduction is non-negative), and the final value is clamped below at 0. -/
theorem quality_score_in_range (df : DataFrame) (h : 0 < df.nRows) :
    0 ≤ (analyze_quality df).quality_score
    ∧ (analyze_quality df).quality_score ≤ 100 := by
  unfold analyze_quality
  dsimp only
  constructor
  · exact le_max_left _ _
  · refine max_le (by norm_num) (round2_le_100 ?_)
    have hA : (0 : ℚ)
        ≤ min 20 (((check_missing_values df).total_missing : ℚ) / (df.nRows : ℚ) * 100) :=
      le_min (by norm_num) (by positivity)
    have hB : (0 : ℚ)
        ≤ min 20 (((check_duplicates df).count : ℚ) / (df.nRows : ℚ) * 100) :=
      le_min (by norm_num) (by positivity)
    have hC : (0 : ℚ) ≤ ((check_inconsistencies df).length : ℚ) * 5 := by positivity
    split_ifs <;> linarith

/-- Witness for C9: a two-row frame with one missing value and a duplicate
pair of rows. -/
theorem quality_score_in_range_witness :
    0 < (DataFrame.mk 3
      [⟨"sales", Dtype.int, [Cell.i 4, Cell.i 4, Cell.null], false⟩]).nRows
    ∧ (0 ≤ (analyze_quality (DataFrame.mk 3
        [⟨"sales", Dtype.int, [Cell.i 4, Cell.i 4, Cell.null], false⟩])).quality_score
      ∧ (analyze_quality (DataFrame.mk 3
        [⟨"sales", Dtype.int, [Cell.i 4, Cell.i 4, Cell.null], false⟩])).quality_score ≤ 100) :=
  ⟨by decide,
    quality_score_in_range
      (DataFrame.mk 3 [⟨"sales", Dtype.int, [Cell.i 4, Cell.i 4, Cell.null], false⟩])
      (by decide)⟩

/-! ## C10 -/

/-- C10: `load_data` raises `ValueError("Unsupported file format")` for
every path whose name ends in none of .csv, .xls, .xlsx — whatever the
pandas readers would do — and in particular never returns a frame for such
a path. -/
theorem load_data_unsupported_format_raises
    (readCsv readExcel : String → Except LoadError DataFrame) (file_path : String)
    (h : (endsWithP file_path ".csv" || endsWithP file_path ".xls"
          || endsWithP file_path ".xlsx") = false) :
    load_data readCsv readExcel file_path
      = Except.error (LoadError.valueError "Unsupported file format")
    ∧ ∀ df : DataFrame, load_data readCsv readExcel file_path ≠ Except.ok df := by
  simp only [Bool.or_eq_false_iff] at h
  obtain ⟨⟨h1, h2⟩, h3⟩ := h
  have hload : load_data readCsv readExcel file_path
      = Except.error (LoadError.valueError "Unsupported file format") := by
    unfold load_data
    simp [h1, h2, h3]
  exact ⟨hload, fun df hok => by rw [hload] at hok; exact Except.noConfusion hok⟩

/-- Witness for C10 at the path "data.json". -/
theorem load_data_unsupported_format_raises_witness :
    ((endsWithP "data.json" ".csv" || endsWithP "data.json" ".xls"
        || endsWithP "data.json" ".xlsx") = false)
    ∧ (load_data (fun _ => Except.error (LoadError.readError "io"))
        (fun _ => Except.error (LoadError.readError "io")) "data.json"
        = Except.error (LoadError.valueError "Unsupported file format")
      ∧ ∀ df : DataFrame,
          load_data (fun _ => Except.error (LoadError.readError "io"))
            (fun _ => Except.error (LoadError.readError "io")) "data.json"
          ≠ Except.ok df) :=
  ⟨by decide,
    load_data_unsupported_format_raises
      (fun _ => Except.error (LoadError.readError "io"))
      (fun _ => Except.error (LoadError.readError "io")) "data.json" (by decide)⟩

/-! ## C7 -/

/-- C7: when no suitable date/target pair exists (e.g. no date-like
column), the forecast stage's merged fragment is the Skipped marker with a
retrievable reason and nothing else — no target column, no plots, no
forecast data — and the pipeline continues: the report stage still runs,
consuming the state that includes the skip fragment, exactly as after a
success. -/
theorem forecast_skipped_empty_fragment_pipeline_continues
    (o : PipelineOracles) (uuid : Nat → String) (task_id : String) (df : DataFrame)
    (h : detect_time_series df = none) :
    (runPipeline o uuid task_id df).forecast
      = { status := "skipped", reason := some "No date/numeric pair found"
          target_column := none, forecast_plot := none, components_plot := none
          forecast_data := none, error := none }
    ∧ (runPipeline o uuid task_id df).final_report
      = o.reportFrag task_id (processSummary df) (analyze_quality df) (o.statFrag df)
          (runPipeline o uuid task_id df).visualizations
          (runPipeline o uuid task_id df).forecast := by
  constructor <;> simp [runPipeline, run_forecast, h]

/-- A concrete two-column frame (a categorical region and a numeric sales
column) with no date-like column. -/
def dfRegionSales : DataFrame :=
  { nRows := 2
    cols :=
      [ ⟨"region", Dtype.obj, [Cell.s "north", Cell.s "south"], false⟩
      , ⟨"sales", Dtype.int, [Cell.i 5, Cell.i 7], false⟩ ] }

/-- Oracles whose out-of-scope payloads are fixed values; the prophet
oracle is never consulted on a frame without a date column. -/
def trivialOracles : PipelineOracles :=
  { statFrag := fun _ => "stats"
    prophet := fun _ _ _ => Except.error "unused"
    reportFrag := fun _ _ _ _ _ _ => "report" }

/-- The fresh-uuid supply of one run. -/
def uuidSupply1 : Nat → String := fun k => "run1-uuid-" ++ toString k

/-- The fresh-uuid supply of a second run (uuid4 draws fresh values each
run). -/
def uuidSupply2 : Nat → String := fun k => "run2-uuid-" ++ toString k

/-- Witness for C7 on the concrete date-less frame. -/
theorem forecast_skipped_witness :
    detect_time_series dfRegionSales = none
    ∧ ((runPipeline trivialOracles uuidSupply1 "t1" dfRegionSales).forecast
        = { status := "skipped", reason := some "No date/numeric pair found"
            target_column := none, forecast_plot := none, components_plot := none
            forecast_data := none, error := none }
      ∧ (runPipeline trivialOracles uuidSupply1 "t1" dfRegionSales).final_report
        = trivialOracles.reportFrag "t1" (processSummary dfRegionSales)
            (analyze_quality dfRegionSales) (trivialOracles.statFrag dfRegionSales)
            (runPipeline trivialOracles uuidSupply1 "t1" dfRegionSales).visualizations
            (runPipeline trivialOracles uuidSupply1 "t1" dfRegionSales).forecast) :=
  ⟨by decide,
    forecast_skipped_empty_fragment_pipeline_continues trivialOracles uuidSupply1 "t1"
      dfRegionSales (by decide)⟩

/-! ## C8 -/

/-- C8 counterexample: running the pipeline twice on the same dataset with
the same always-succeeding providers but fresh uuid draws yields different
SharedStates — already the correlation-heatmap path of the visualization
fragment embeds the run's uuid. -/
theorem pipeline_not_identical_across_runs :
    (runPipeline trivialOracles uuidSupply1 "t1" dfRegionSales).visualizations.correlation
      ≠ (runPipeline trivialOracles uuidSupply2 "t1" dfRegionSales).visualizations.correlation
    ∧ runPipeline trivialOracles uuidSupply1 "t1" dfRegionSales
      ≠ runPipeline trivialOracles uuidSupply2 "t1" dfRegionSales := by
  have h1 : (runPipeline trivialOracles uuidSupply1 "t1" dfRegionSales).visualizations.correlation
      ≠ (runPipeline trivialOracles uuidSupply2 "t1" dfRegionSales).visualizations.correlation := by
    decide
  exact ⟨h1, fun h => h1 (congrArg (fun s => s.visualizations.correlation) h)⟩

/-- The visualization fragment with the uuid-bearing path strings erased
(each path list replaced by its length). -/
structure ErasedViz where
  correlation : Nat
  distributions : Nat
  categorical : Nat
  time_series : Nat
deriving DecidableEq, Repr

/-- Erase the plot paths of a visualization fragment. -/
def eraseViz (v : VizCharts) : ErasedViz :=
  ⟨v.correlation.length, v.distributions.length, v.categorical.length,
    v.time_series.length⟩

/-- The forecast fragment with the uuid-bearing plot paths erased (the
two path fields replaced by their presence). -/
structure ErasedForecast where
  status : String
  reason : Option String
  target_column : Option String
  has_forecast_plot : Bool
  has_components_plot : Bool
  forecast_data : Option (List ForecastRow)
  error : Option String
deriving DecidableEq, Repr

/-- Erase the plot paths of a forecast fragment. -/
def eraseForecast (fc : ForecastFrag) : ErasedForecast :=
  ⟨fc.status, fc.reason, fc.target_column, fc.forecast_plot.isSome,
    fc.components_plot.isSome, fc.forecast_data, fc.error⟩

/-- The pipeline state up to the uuid-bearing plot paths. The final report
is a function of the path-bearing fragments (the report writer receives
the chart paths), so it inherits their run-to-run difference and is not
part of the erased comparison. -/
structure ErasedState where
  task_id : String
  df : DataFrame
  summary : SummaryFrag
  quality_report : QualityReport
  statistics : String
  visualizations : ErasedViz
  forecast : ErasedForecast
deriving DecidableEq, Repr

/-- Erase the plot paths of a full pipeline state. -/
def eraseState (st : PipelineState) : ErasedState :=
  ⟨st.task_id, st.df, st.summary, st.quality_report, st.statistics,
    eraseViz st.visualizations, eraseForecast st.forecast⟩

/-- How many plots `plotFold` makes, and where the counter lands, do not
depend on the uuid supply. -/
theorem plotFold_shape (uuid : Nat → String) (ts : List String) :
    ∀ k : Nat, (plotFold uuid ts k).1.length = ts.length
      ∧ (plotFold uuid ts k).2 = k + ts.length := by
  induction ts with
  | nil => intro k; simp [plotFold]
  | cons t ts ih =>
      intro k
      have := ih (k + 1)
      simp only [plotFold, List.length_cons]
      omega

/-- The shape of the visualization fragment and the final uuid counter are
independent of the uuid supply. -/
theorem create_visualizations_erase (uuid uuid' : Nat → String) (k : Nat)
    (df : DataFrame) :
    eraseViz (create_visualizations uuid k df).1
      = eraseViz (create_visualizations uuid' k df).1
    ∧ (create_visualizations uuid k df).2 = (create_visualizations uuid' k df).2 := by
  unfold create_visualizations
  dsimp only
  split
  case isTrue hc =>
    obtain ⟨hd1, hd2⟩ := plotFold_shape uuid
      (((df.cols.filter fun c => isNumericDtype c.dtype).take 3).map
        fun c => "Distribution of " ++ c.name) k
    obtain ⟨hd1', hd2'⟩ := plotFold_shape uuid'
      (((df.cols.filter fun c => isNumericDtype c.dtype).take 3).map
        fun c => "Distribution of " ++ c.name) k
    obtain ⟨hc1, hc2⟩ := plotFold_shape uuid
      (((((df.cols.filter fun c => c.dtype = Dtype.obj).take 3).filter
        fun c => nuniqueCol df c ≤ 20)).map fun c => "Count of " ++ c.name)
      (plotFold uuid
        (((df.cols.filter fun c => isNumericDtype c.dtype).take 3).map
          fun c => "Distribution of " ++ c.name) k).2
    obtain ⟨hc1', hc2'⟩ := plotFold_shape uuid'
      (((((df.cols.filter fun c => c.dtype = Dtype.obj).take 3).filter
        fun c => nuniqueCol df c ≤ 20)).map fun c => "Count of " ++ c.name)
      (plotFold uuid'
        (((df.cols.filter fun c => isNumericDtype c.dtype).take 3).map
          fun c => "Distribution of " ++ c.name) k).2
    split <;> simp_all [eraseViz]
  case isFalse hc =>
    obtain ⟨hd1, hd2⟩ := plotFold_shape uuid
      (((df.cols.filter fun c => isNumericDtype c.dtype).take 3).map
        fun c => "Distribution of " ++ c.name) (k + 1)
    obtain ⟨hd1', hd2'⟩ := plotFold_shape uuid'
      (((df.cols.filter fun c => isNumericDtype c.dtype).take 3).map
        fun c => "Distribution of " ++ c.name) (k + 1)
    obtain ⟨hc1, hc2⟩ := plotFold_shape uuid
      (((((df.cols.filter fun c => c.dtype = Dtype.obj).take 3).filter
        fun c => nuniqueCol df c ≤ 20)).map fun c => "Count of " ++ c.name)
      (plotFold uuid
        (((df.cols.filter fun c => isNumericDtype c.dtype).take 3).map
          fun c => "Distribution of " ++ c.name) (k + 1)).2
    obtain ⟨hc1', hc2'⟩ := plotFold_shape uuid'
      (((((df.cols.filter fun c => c.dtype = Dtype.obj).take 3).filter
        fun c => nuniqueCol df c ≤ 20)).map fun c => "Count of " ++ c.name)
      (plotFold uuid'
        (((df.cols.filter fun c => isNumericDtype c.dtype).take 3).map
          fun c => "Distribution of " ++ c.name) (k + 1)).2
    split <;> simp_all [eraseViz]

/-- The erased forecast fragment is independent of the uuid supply. -/
theorem run_forecast_erase
    (prophet : DataFrame → String → String → Except String (List ForecastRow))
    (uuid uuid' : Nat → String) (k : Nat) (periods : Nat) (df : DataFrame) :
    eraseForecast (run_forecast prophet uuid k periods df).1
      = eraseForecast (run_forecast prophet uuid' k periods df).1 := by
  unfold run_forecast
  rcases hts : detect_time_series df with _ | ⟨dc, tc⟩
  · rfl
  · rcases hp : prophet df dc tc with e | data <;> simp [hp, eraseForecast]

/-- C8 amended: two runs of the pipeline on the same dataset, with the
same (deterministic) library and provider behavior but fresh uuid draws,
agree on everything except the uuid-bearing plot-path strings — and on
whatever is computed from those paths (the final report receives the chart
paths, so it differs along with them). -/
theorem pipeline_deterministic_modulo_plot_paths
    (o : PipelineOracles) (uuid uuid' : Nat → String) (task_id : String)
    (df : DataFrame) :
    eraseState (runPipeline o uuid task_id df)
      = eraseState (runPipeline o uuid' task_id df) := by
  obtain ⟨hviz, hctr⟩ := create_visualizations_erase uuid uuid' 0 df
  have hfc : eraseForecast (run_forecast o.prophet uuid (create_visualizations uuid 0 df).2
        30 df).1
      = eraseForecast (run_forecast o.prophet uuid' (create_visualizations uuid' 0 df).2
        30 df).1 := by
    rw [← hctr]
    exact run_forecast_erase o.prophet uuid uuid' (create_visualizations uuid 0 df).2 30 df
  unfold runPipeline eraseState
  dsimp only
  rw [ErasedState.mk.injEq]
  exact ⟨rfl, rfl, rfl, rfl, rfl, hviz, hfc⟩

end AIBI
